import Mathlib

/-!
Verification of the `timezone_converter` Rust library (src/lib.rs).

The library is a thin facade over the external chrono / chrono-tz crates:
it resolves two timezone names at construction, re-expresses UTC-anchored
instants in the target zone, and reports offset / DST metadata for the
current instant.

Shallow embedding conventions:
* An absolute instant is a count of seconds since the Unix epoch (`Int`),
  the UTC-anchored representation that `chrono::DateTime` carries
  internally.
* A timezone (`Tz`) is its canonical name together with its rule set,
  i.e. the data the external Timezone Rule Provider yields for a resolved
  name: a UTC-offset function (seconds east of UTC at each instant,
  `offset.fix().local_minus_utc()` in the source) and an optional
  abbreviation at each instant (`offset.abbreviation()`).
* The Rule Provider itself (`str::parse::<Tz>()`) is an arbitrary partial
  map from names to rule sets; theorems quantify over it.
* The system clock read (`Utc::now()`) is passed as an explicit `now`
  argument, so every operation is a pure function of the converter and its
  observed instant.
* The `f64` hour count of `get_time_difference` is embedded as an exact
  rational: the subtraction of two offset integers and the division by
  3600 are the mathematical operations the source performs.
-/

/-- A timezone as yielded by the external Rule Provider for a resolved
name: the canonical name plus the zone's offset rules over time. -/
structure Tz where
  name : String
  /-- UTC offset in seconds east of UTC at a given UTC instant
  (`offset.fix().local_minus_utc()`). -/
  offsetAt : Int → Int
  /-- Offset abbreviation at a given UTC instant
  (`offset.abbreviation()`), when one exists. -/
  abbrevAt : Int → Option String

/-- The external Timezone Rule Provider: resolves a zone name to its rule
set, or fails (`source.parse::<Tz>()` in the source). -/
def RuleProvider : Type := String → Option Tz

/-- A `chrono::DateTime`: an absolute UTC-anchored instant paired with the
zone whose rules apply for display. -/
structure DateTime where
  instant : Int
  zone : Tz

/-- Models `chrono`'s `DateTime::with_timezone`: keep the absolute instant,
attach another zone. -/
def DateTime.withTimezone (datetime : DateTime) (tz : Tz) : DateTime :=
  { instant := datetime.instant, zone := tz }

/-- Models `chrono`'s rendering of a zoned datetime as a local clock
reading: the local naive time is the UTC instant shifted by the zone's
offset at that instant (`naive_utc + offset.local_minus_utc`). -/
def DateTime.localClock (datetime : DateTime) : Int :=
  datetime.instant + datetime.zone.offsetAt datetime.instant

/-- Models Rust's `str::ends_with` with a string pattern: the pattern is a
suffix of the string. Stated over the character lists so it is executable
by the kernel. -/
def strEndsWith (s suffix : String) : Bool :=
  List.isSuffixOf suffix.data s.data

/-- The error enum `Errors` of src/lib.rs. -/
inductive Errors where
  | InvalidTimeZone : String → Errors
  | ParseError : String → Errors
  | ConversionError : String → Errors
deriving DecidableEq

/-- The struct `TimeZoneConverter` of src/lib.rs: the two resolved
timezones. -/
structure TimeZoneConverter where
  source_tz : Tz
  target_tz : Tz

/-- The struct `TimeZoneInfo` of src/lib.rs: zone name, UTC offset (as a
signed duration in seconds) and DST flag. -/
structure TimeZoneInfo where
  name : String
  /-- `Duration::seconds(total_offset_seconds)` -/
  offset : Int
  is_dst : Bool
deriving DecidableEq

/-- `TimeZoneConverter::new` of src/lib.rs: resolve `source`, then
`target`, against the Rule Provider; the first failure is reported as
`InvalidTimeZone` carrying the offending name. -/
def TimeZoneConverter.new (db : RuleProvider) (source target : String) :
    Except Errors TimeZoneConverter :=
  match db source with
  | none => .error (.InvalidTimeZone source)
  | some source_tz =>
    match db target with
    | none => .error (.InvalidTimeZone target)
    | some target_tz => .ok { source_tz := source_tz, target_tz := target_tz }

/-- `TimeZoneConverter::convert` of src/lib.rs:
`Ok(datetime.with_timezone(&self.target_tz))`. The input may carry any
zone, as in the generic `DateTime<T>` signature. -/
def TimeZoneConverter.convert (c : TimeZoneConverter) (datetime : DateTime) :
    Except Errors DateTime :=
  .ok (datetime.withTimezone c.target_tz)

/-- `TimeZoneConverter::get_current_time_source` of src/lib.rs, with the
clock observation `Utc::now()` passed explicitly as a UTC instant. -/
def TimeZoneConverter.get_current_time_source (c : TimeZoneConverter)
    (now : Int) : Except Errors DateTime :=
  .ok (DateTime.withTimezone { instant := now, zone := c.source_tz } c.source_tz)

/-- `TimeZoneConverter::get_current_time_target` of src/lib.rs, with the
clock observation passed explicitly. -/
def TimeZoneConverter.get_current_time_target (c : TimeZoneConverter)
    (now : Int) : Except Errors DateTime :=
  .ok (DateTime.withTimezone { instant := now, zone := c.target_tz } c.target_tz)

/-- `TimeZoneConverter::get_timezone_info` of src/lib.rs, with the clock
observation passed explicitly: reads the source zone's offset and
abbreviation at `now`; the DST flag is the abbreviation ending in "DT"
(false when no abbreviation). -/
def TimeZoneConverter.get_timezone_info (c : TimeZoneConverter)
    (now : Int) : Except Errors TimeZoneInfo :=
  let total_offset_seconds := c.source_tz.offsetAt now
  let is_dst := match c.source_tz.abbrevAt now with
    | some abbr => strEndsWith abbr "DT"
    | none => false
  .ok { name := c.source_tz.name
        offset := total_offset_seconds
        is_dst := is_dst }

/-- `TimeZoneConverter::get_time_difference` of src/lib.rs, with the clock
observation passed explicitly: both zone offsets are taken at the same
instant `now`, and `(source_offset - target_offset) as f64 / 3600.0` is
embedded as the exact rational it denotes. -/
def TimeZoneConverter.get_time_difference (c : TimeZoneConverter)
    (now : Int) : Except Errors ℚ :=
  let source_offset := c.source_tz.offsetAt now
  let target_offset := c.target_tz.offsetAt now
  .ok (((source_offset - target_offset : Int) : ℚ) / 3600)

/-! Sample rule-provider fixture, used to instantiate theorems with
hypotheses at concrete inputs. The rule data mirrors the IANA database
entries the repository's tests exercise: "UTC" (offset 0, abbreviation
"UTC"), "Africa/Kampala" (fixed UTC+3, abbreviation "EAT", no DST) and
"America/New_York" (UTC-5 in winter / UTC-4 with abbreviation "EDT" under
DST, switching on the instant). -/

/-- Fixture zone for "UTC". -/
def utcZone : Tz :=
  { name := "UTC"
    offsetAt := fun _ => 0
    abbrevAt := fun _ => some "UTC" }

/-- Fixture zone for "Africa/Kampala": fixed UTC+3, abbreviation "EAT",
never DST. -/
def kampalaZone : Tz :=
  { name := "Africa/Kampala"
    offsetAt := fun _ => 3 * 3600
    abbrevAt := fun _ => some "EAT" }

/-- Fixture zone for "America/New_York": UTC-4 / "EDT" during the 2024 DST
span (2024-03-10 07:00 UTC to 2024-11-03 06:00 UTC as epoch seconds),
UTC-5 / "EST" otherwise. -/
def newYorkZone : Tz :=
  { name := "America/New_York"
    offsetAt := fun t =>
      if 1710054000 ≤ t ∧ t < 1730613600 then -4 * 3600 else -5 * 3600
    abbrevAt := fun t =>
      if 1710054000 ≤ t ∧ t < 1730613600 then some "EDT" else some "EST" }

/-- Fixture Rule Provider resolving exactly the three fixture zones. -/
def sampleDb : RuleProvider := fun name =>
  if name = "UTC" then some utcZone
  else if name = "Africa/Kampala" then some kampalaZone
  else if name = "America/New_York" then some newYorkZone
  else none

/-! ## Theorems for the claims -/

/-- C1: for every converter and every input datetime, tagged with any zone,
`convert` returns the same absolute instant with the converter's target
zone attached: the UTC-anchored instant is unchanged and only the attached
zone (hence the zone-relative representation) changes. -/
theorem convert_preserves_instant (c : TimeZoneConverter)
    (datetime : DateTime) :
    c.convert datetime =
      .ok { instant := datetime.instant, zone := c.target_tz } :=
  rfl

/-- C2: for every Rule Provider, every pair of resolvable zone names `a`
and `b` and every instant, converting with a converter built as
`new a b` and then back with a converter built as `new b a` yields the
identical absolute instant (re-tagged with zone `a`). -/
theorem convert_roundtrip (db : RuleProvider) (a b : String)
    (za zb : Tz) (ha : db a = some za) (hb : db b = some zb)
    (datetime : DateTime) :
    ∃ cab cba dt1 dt2,
      TimeZoneConverter.new db a b = .ok cab ∧
      TimeZoneConverter.new db b a = .ok cba ∧
      cab.convert datetime = .ok dt1 ∧
      cba.convert dt1 = .ok dt2 ∧
      dt2.instant = datetime.instant ∧ dt2.zone = za := by
  refine ⟨{ source_tz := za, target_tz := zb },
    { source_tz := zb, target_tz := za },
    { instant := datetime.instant, zone := zb },
    { instant := datetime.instant, zone := za },
    ?_, ?_, rfl, rfl, rfl, rfl⟩
  · simp [TimeZoneConverter.new, ha, hb]
  · simp [TimeZoneConverter.new, ha, hb]

/-- Witness for C2: a concrete round trip between "America/New_York" and
"Africa/Kampala" over the fixture Rule Provider at the instant
2024-11-04 15:00:00 UTC. -/
theorem convert_roundtrip_witness :
    ∃ cab cba dt1 dt2,
      TimeZoneConverter.new sampleDb "America/New_York" "Africa/Kampala" = .ok cab ∧
      TimeZoneConverter.new sampleDb "Africa/Kampala" "America/New_York" = .ok cba ∧
      cab.convert { instant := 1730732400, zone := newYorkZone } = .ok dt1 ∧
      cba.convert dt1 = .ok dt2 ∧
      dt2.instant = 1730732400 ∧ dt2.zone = newYorkZone :=
  convert_roundtrip sampleDb "America/New_York" "Africa/Kampala"
    newYorkZone kampalaZone rfl rfl { instant := 1730732400, zone := newYorkZone }

/-- C3: `new` reports `InvalidTimeZone` with exactly the offending name,
checking the source name first (so when both are invalid the source is
reported), and succeeds with both resolved zones when both names
resolve. -/
theorem new_validation (db : RuleProvider) (source target : String) :
    (db source = none →
      TimeZoneConverter.new db source target =
        .error (.InvalidTimeZone source)) ∧
    (∀ source_tz, db source = some source_tz → db target = none →
      TimeZoneConverter.new db source target =
        .error (.InvalidTimeZone target)) ∧
    (∀ source_tz target_tz,
      db source = some source_tz → db target = some target_tz →
      TimeZoneConverter.new db source target =
        .ok { source_tz := source_tz, target_tz := target_tz }) := by
  refine ⟨fun hs => ?_, fun source_tz hs ht => ?_, fun source_tz target_tz hs ht => ?_⟩
  · simp [TimeZoneConverter.new, hs]
  · simp [TimeZoneConverter.new, hs, ht]
  · simp [TimeZoneConverter.new, hs, ht]

/-- Witness for C3: over the fixture Rule Provider, an invalid source is
reported, an invalid target is reported, and two valid names yield the
converter holding both resolved zones. -/
theorem new_validation_witness :
    TimeZoneConverter.new sampleDb "Not/AZone" "UTC" =
      .error (.InvalidTimeZone "Not/AZone") ∧
    TimeZoneConverter.new sampleDb "UTC" "Not/AZone" =
      .error (.InvalidTimeZone "Not/AZone") ∧
    TimeZoneConverter.new sampleDb "UTC" "Africa/Kampala" =
      .ok { source_tz := utcZone, target_tz := kampalaZone } :=
  ⟨(new_validation sampleDb "Not/AZone" "UTC").1 rfl,
   (new_validation sampleDb "UTC" "Not/AZone").2.1 utcZone rfl rfl,
   (new_validation sampleDb "UTC" "Africa/Kampala").2.2 utcZone kampalaZone rfl rfl⟩

/-- C4: on a constructed converter, no query operation can return an
error: `convert`, both current-time queries, `get_timezone_info` and
`get_time_difference` all return `Ok` for every input; the
`InvalidTimeZone`, `ParseError` and `ConversionError` channels are
unreachable from queries. -/
theorem queries_never_error (c : TimeZoneConverter) (datetime : DateTime)
    (now : Int) :
    (∃ v, c.convert datetime = .ok v) ∧
    (∃ v, c.get_current_time_source now = .ok v) ∧
    (∃ v, c.get_current_time_target now = .ok v) ∧
    (∃ v, c.get_timezone_info now = .ok v) ∧
    (∃ v, c.get_time_difference now = .ok v) :=
  ⟨⟨_, rfl⟩, ⟨_, rfl⟩, ⟨_, rfl⟩, ⟨_, rfl⟩, ⟨_, rfl⟩⟩

/-- C5: `get_time_difference` returns exactly the source zone's offset in
seconds minus the target zone's offset in seconds, divided by 3600, as an
hour count, with both offsets evaluated at the same single observation of
"now". -/
theorem get_time_difference_spec (c : TimeZoneConverter) (now : Int) :
    c.get_time_difference now =
      .ok (((c.source_tz.offsetAt now : ℚ) -
        (c.target_tz.offsetAt now : ℚ)) / 3600) := by
  simp [TimeZoneConverter.get_time_difference]

/-- C6: `get_time_difference` is antisymmetric under swapping source and
target: for resolvable names `a` and `b`, the difference of the converter
`new a b` at any instant is the negation of the difference of `new b a`
at the same instant. -/
theorem get_time_difference_antisymm (db : RuleProvider) (a b : String)
    (za zb : Tz) (ha : db a = some za) (hb : db b = some zb) (t : Int) :
    ∃ cab cba dab dba,
      TimeZoneConverter.new db a b = .ok cab ∧
      TimeZoneConverter.new db b a = .ok cba ∧
      cab.get_time_difference t = .ok dab ∧
      cba.get_time_difference t = .ok dba ∧
      dab = -dba := by
  refine ⟨{ source_tz := za, target_tz := zb },
    { source_tz := zb, target_tz := za }, _, _, ?_, ?_, rfl, rfl, ?_⟩
  · simp [TimeZoneConverter.new, ha, hb]
  · simp [TimeZoneConverter.new, ha, hb]
  · push_cast
    ring

/-- Witness for C6: the concrete antisymmetry of the New York / Kampala
pair over the fixture Rule Provider at the epoch instant 0. -/
theorem get_time_difference_antisymm_witness :
    ∃ cab cba dab dba,
      TimeZoneConverter.new sampleDb "America/New_York" "Africa/Kampala" = .ok cab ∧
      TimeZoneConverter.new sampleDb "Africa/Kampala" "America/New_York" = .ok cba ∧
      cab.get_time_difference 0 = .ok dab ∧
      cba.get_time_difference 0 = .ok dba ∧
      dab = -dba :=
  get_time_difference_antisymm sampleDb "America/New_York" "Africa/Kampala"
    newYorkZone kampalaZone rfl rfl 0

/-- C7: `get_timezone_info` sets `is_dst` to true exactly when the source
zone's abbreviation at the observed instant exists and ends with "DT"
(false when no abbreviation is available); consequently, for the no-DST
fixture zones "Africa/Kampala" (abbreviation "EAT") and "UTC"
(abbreviation "UTC"), the flag is false at every instant and for every
target zone. -/
theorem is_dst_policy (c : TimeZoneConverter) (now : Int) :
    (∃ info, c.get_timezone_info now = .ok info ∧
      (info.is_dst = true ↔
        ∃ abbr, c.source_tz.abbrevAt now = some abbr ∧
          strEndsWith abbr "DT" = true)) ∧
    (∀ tgt : Tz, ∀ t : Int,
      (∃ info,
        TimeZoneConverter.get_timezone_info
          { source_tz := kampalaZone, target_tz := tgt } t = .ok info ∧
        info.is_dst = false) ∧
      (∃ info,
        TimeZoneConverter.get_timezone_info
          { source_tz := utcZone, target_tz := tgt } t = .ok info ∧
        info.is_dst = false)) := by
  constructor
  · refine ⟨_, rfl, ?_⟩
    rcases h : c.source_tz.abbrevAt now with _ | abbr <;>
      simp [TimeZoneConverter.get_timezone_info, h]
  · intro tgt t
    refine ⟨⟨_, rfl, ?_⟩, ⟨_, rfl, ?_⟩⟩
    · simp only [kampalaZone]
      decide
    · simp only [utcZone]
      decide

/-- C8: `get_timezone_info` reports the source zone's canonical name and
its UTC offset at the observed instant under the "seconds east of UTC"
convention: the returned offset equals the number of seconds the source
zone's local clock reads ahead of UTC at that instant. -/
theorem get_timezone_info_offset_spec (c : TimeZoneConverter) (now : Int) :
    ∃ info, c.get_timezone_info now = .ok info ∧
      info.name = c.source_tz.name ∧
      info.offset =
        DateTime.localClock { instant := now, zone := c.source_tz } - now := by
  refine ⟨_, rfl, rfl, ?_⟩
  simp [TimeZoneConverter.get_timezone_info, DateTime.localClock]

/-- C9: `get_timezone_info` is a deterministic function of the converter
and the observed instant: two calls on the same converter observing the
same instant return identical name, offset and DST values. -/
theorem get_timezone_info_deterministic (c : TimeZoneConverter)
    (now1 now2 : Int) (h : now1 = now2) :
    ∃ info1 info2,
      c.get_timezone_info now1 = .ok info1 ∧
      c.get_timezone_info now2 = .ok info2 ∧
      info1.name = info2.name ∧ info1.offset = info2.offset ∧
      info1.is_dst = info2.is_dst := by
  subst h
  exact ⟨_, _, rfl, rfl, rfl, rfl, rfl⟩

/-- Witness for C9: two observations of the same instant on the fixture
New York to Kampala converter agree on all three fields. -/
theorem get_timezone_info_deterministic_witness :
    ∃ info1 info2,
      TimeZoneConverter.get_timezone_info
        { source_tz := newYorkZone, target_tz := kampalaZone } 1730732400 = .ok info1 ∧
      TimeZoneConverter.get_timezone_info
        { source_tz := newYorkZone, target_tz := kampalaZone } 1730732400 = .ok info2 ∧
      info1.name = info2.name ∧ info1.offset = info2.offset ∧
      info1.is_dst = info2.is_dst :=
  get_timezone_info_deterministic
    { source_tz := newYorkZone, target_tz := kampalaZone } 1730732400 1730732400 rfl

/-- C10: the result of `get_timezone_info` does not depend on the target
zone: converters sharing a source zone return identical results at the
same observed instant, whatever their target zones. -/
theorem get_timezone_info_target_independent (s t1 t2 : Tz) (now : Int) :
    TimeZoneConverter.get_timezone_info { source_tz := s, target_tz := t1 } now =
      TimeZoneConverter.get_timezone_info { source_tz := s, target_tz := t2 } now :=
  rfl
